import Mathlib

/-!
Verification development for the StudyHub web application.

The data model follows `app/models.py`; the request handlers follow
`app/routes.py`; the AI fallback chain follows `app/ai_service.py`.
Database state is embedded as lists of records; each handler is a pure
function from the state (plus the acting user's id and the request
parameters) to a response paired with the successor state.
-/

namespace StudyHub

/-- A registered user (`models.User`, the fields relevant to the claims). -/
structure User where
  id : Nat
  username : String
deriving DecidableEq, Repr

/-- A subject (`models.Subject`): `user_id` is the owning user. -/
structure Subject where
  id : Nat
  name : String
  description : String
  color : String
  user_id : Nat
deriving DecidableEq, Repr

/-- A note (`models.Note`): owned transitively through its `subject_id`. -/
structure Note where
  id : Nat
  title : String
  content : String
  is_pinned : Bool
  progress : String
  color : String
  subject_id : Nat
deriving DecidableEq, Repr

/-- A study group (`models.StudyGroup`). -/
structure StudyGroup where
  id : Nat
  name : String
  description : String
  invite_code : String
  created_by : Nat
deriving DecidableEq, Repr

/-- A share of a note into a group (`models.SharedNote`). -/
structure SharedNote where
  id : Nat
  note_id : Nat
  group_id : Nat
  shared_by : Nat
deriving DecidableEq, Repr

/-- The relational state: one list per table, plus the `group_members`
association table as (user_id, group_id) pairs. -/
structure DB where
  users : List User
  subjects : List Subject
  notes : List Note
  groups : List StudyGroup
  shared_notes : List SharedNote
  group_members : List (Nat × Nat)
deriving DecidableEq, Repr

/-- Primary-key lookup, `Subject.query.get`. -/
def findSubject (db : DB) (sid : Nat) : Option Subject :=
  db.subjects.find? (fun s => s.id == sid)

/-- Primary-key lookup, `Note.query.get`. -/
def findNote (db : DB) (nid : Nat) : Option Note :=
  db.notes.find? (fun n => n.id == nid)

/-- Primary-key lookup, `StudyGroup.query.get`. -/
def findGroup (db : DB) (gid : Nat) : Option StudyGroup :=
  db.groups.find? (fun g => g.id == gid)

/-- `current_user in group.members.all()`: a row of the `group_members`
association table links the user to the group. -/
def isMember (db : DB) (uid gid : Nat) : Bool :=
  db.group_members.any (fun p => p.1 == uid && p.2 == gid)

/-- The response shapes the handlers can produce.  `page` stands for any
rendered template, redirect or file download; `json` carries the fields of
the JSON bodies the AJAX endpoints produce; `notFound` is a 404,
`forbidden` a 403 (`abort(403)`); `srvError` is the crash that would occur
if a foreign key dangled; `sharedOk`/`alreadyShared` distinguish the two
flash outcomes of the share handler. -/
inductive Resp where
  | page : Resp
  | json : Bool → String → Resp
  | notFound : Resp
  | forbidden : Resp
  | srvError : Resp
  | sharedOk : Resp
  | alreadyShared : Resp
deriving DecidableEq, Repr

/-- `view_subject` (routes.py): 404 on a missing id, 403 when the subject
does not belong to the acting user, else render. -/
def view_subject (db : DB) (uid sid : Nat) : Resp × DB :=
  match findSubject db sid with
  | none => (.notFound, db)
  | some s => if s.user_id ≠ uid then (.forbidden, db) else (.page, db)

/-- `edit_subject` (routes.py): ownership check, then on a validated form
overwrite name/description/color.  `form = none` is a GET or an invalid
submission, which only renders. -/
def edit_subject (db : DB) (uid sid : Nat)
    (form : Option (String × String × String)) : Resp × DB :=
  match findSubject db sid with
  | none => (.notFound, db)
  | some s =>
    if s.user_id ≠ uid then (.forbidden, db)
    else
      match form with
      | none => (.page, db)
      | some (nm, desc, col) =>
        (.page, { db with subjects := db.subjects.map (fun t =>
          if t.id == s.id then { t with name := nm, description := desc, color := col } else t) })

/-- `delete_subject` (routes.py): ownership check, then delete the subject;
the `cascade='all, delete-orphan'` on `Subject.notes` (models.py) deletes
its notes with it. -/
def delete_subject (db : DB) (uid sid : Nat) : Resp × DB :=
  match findSubject db sid with
  | none => (.notFound, db)
  | some s =>
    if s.user_id ≠ uid then (.forbidden, db)
    else (.page, { db with
      subjects := db.subjects.filter (fun t => t.id != s.id),
      notes := db.notes.filter (fun n => n.subject_id != s.id) })

/-- `create_note` (routes.py): ownership check on the parent subject, then
insert a note whose unset columns take the model defaults of models.py:
`is_pinned=False`, `progress="unread"`, `color="#ffffff"`. -/
def create_note (db : DB) (uid sid : Nat)
    (form : Option (String × String)) (newId : Nat) : Resp × DB :=
  match findSubject db sid with
  | none => (.notFound, db)
  | some s =>
    if s.user_id ≠ uid then (.forbidden, db)
    else
      match form with
      | none => (.page, db)
      | some (title, content) =>
        (.page, { db with notes := db.notes ++
          [{ id := newId, title := title, content := content,
             is_pinned := false, progress := "unread", color := "#ffffff",
             subject_id := s.id }] })

/-- `view_note` (routes.py): 404 on a missing id, then the transitive
ownership check `note.subject.user_id != current_user.id`. -/
def view_note (db : DB) (uid nid : Nat) : Resp × DB :=
  match findNote db nid with
  | none => (.notFound, db)
  | some n =>
    match findSubject db n.subject_id with
    | none => (.srvError, db)
    | some s => if s.user_id ≠ uid then (.forbidden, db) else (.page, db)

/-- `edit_note` (routes.py): transitive ownership check, then on a
validated form overwrite title and content. -/
def edit_note (db : DB) (uid nid : Nat)
    (form : Option (String × String)) : Resp × DB :=
  match findNote db nid with
  | none => (.notFound, db)
  | some n =>
    match findSubject db n.subject_id with
    | none => (.srvError, db)
    | some s =>
      if s.user_id ≠ uid then (.forbidden, db)
      else
        match form with
        | none => (.page, db)
        | some (title, content) =>
          (.page, { db with notes := db.notes.map (fun m =>
            if m.id == n.id then { m with title := title, content := content } else m) })

/-- `delete_note` (routes.py): transitive ownership check, then delete the
note row.  models.py declares no relationship (hence no cascade) from
`Note` to `SharedNote`, so the `shared_notes` table is untouched. -/
def delete_note (db : DB) (uid nid : Nat) : Resp × DB :=
  match findNote db nid with
  | none => (.notFound, db)
  | some n =>
    match findSubject db n.subject_id with
    | none => (.srvError, db)
    | some s =>
      if s.user_id ≠ uid then (.forbidden, db)
      else (.page, { db with notes := db.notes.filter (fun m => m.id != n.id) })

/-- `export_note` (routes.py): read-only download behind the same
transitive ownership check. -/
def export_note (db : DB) (uid nid : Nat) : Resp × DB :=
  match findNote db nid with
  | none => (.notFound, db)
  | some n =>
    match findSubject db n.subject_id with
    | none => (.srvError, db)
    | some s => if s.user_id ≠ uid then (.forbidden, db) else (.page, db)

/-- `export_note_pdf` (routes.py): same gate as the text export. -/
def export_note_pdf (db : DB) (uid nid : Nat) : Resp × DB :=
  match findNote db nid with
  | none => (.notFound, db)
  | some n =>
    match findSubject db n.subject_id with
    | none => (.srvError, db)
    | some s => if s.user_id ≠ uid then (.forbidden, db) else (.page, db)

/-- `toggle_pin_note` (routes.py): ownership check, then flip `is_pinned`. -/
def toggle_pin_note (db : DB) (uid nid : Nat) : Resp × DB :=
  match findNote db nid with
  | none => (.notFound, db)
  | some n =>
    match findSubject db n.subject_id with
    | none => (.srvError, db)
    | some s =>
      if s.user_id ≠ uid then (.forbidden, db)
      else (.page, { db with notes := db.notes.map (fun m =>
        if m.id == n.id then { m with is_pinned := !m.is_pinned } else m) })

/-- `update_note_color` (routes.py): ownership check, then store the
posted color (default `#ffffff`) and echo it with `success: True`. -/
def update_note_color (db : DB) (uid nid : Nat)
    (colorParam : Option String) : Resp × DB :=
  match findNote db nid with
  | none => (.notFound, db)
  | some n =>
    match findSubject db n.subject_id with
    | none => (.srvError, db)
    | some s =>
      if s.user_id ≠ uid then (.forbidden, db)
      else
        let c := colorParam.getD "#ffffff"
        (.json true c, { db with notes := db.notes.map (fun m =>
          if m.id == n.id then { m with color := c } else m) })

/-- The three legal progress states (routes.py `update_progress`). -/
def PROGRESS_VALUES : List String := ["unread", "reading", "mastered"]

/-- `update_progress` (routes.py): ownership check; the posted value
(default `"unread"` when the key is absent) is stored only when it lies in
`PROGRESS_VALUES`, but the response is `{'success': True, 'progress': p}`
either way. -/
def update_progress (db : DB) (uid nid : Nat)
    (progressParam : Option String) : Resp × DB :=
  match findNote db nid with
  | none => (.notFound, db)
  | some n =>
    match findSubject db n.subject_id with
    | none => (.srvError, db)
    | some s =>
      if s.user_id ≠ uid then (.forbidden, db)
      else
        let p := progressParam.getD "unread"
        if p ∈ PROGRESS_VALUES then
          (.json true p, { db with notes := db.notes.map (fun m =>
            if m.id == n.id then { m with progress := p } else m) })
        else (.json true p, db)

/-- `ai_summarize` (routes.py), standing for all per-note AI endpoints
(summarize/quiz/explain/improve/chat/flashcards/mindmap): ownership check,
then a read-only call of the AI gateway, abstracted by `oracle`. -/
def ai_summarize (db : DB) (uid nid : Nat)
    (oracle : String → String → String) : Resp × DB :=
  match findNote db nid with
  | none => (.notFound, db)
  | some n =>
    match findSubject db n.subject_id with
    | none => (.srvError, db)
    | some s =>
      if s.user_id ≠ uid then (.forbidden, db)
      else (.json true (oracle n.title n.content), db)

/-- `view_group` (routes.py): forbidden exactly when the acting user is
neither a member nor the creator (`current_user not in group.members.all()
and group.created_by != current_user.id`). -/
def view_group (db : DB) (uid gid : Nat) : Resp × DB :=
  match findGroup db gid with
  | none => (.notFound, db)
  | some g =>
    if ¬ isMember db uid g.id ∧ g.created_by ≠ uid then (.forbidden, db)
    else (.page, db)

/-- Fresh primary key for a `SharedNote` insert. -/
def nextSharedId (db : DB) : Nat :=
  (db.shared_notes.map (fun sn => sn.id)).foldr max 0 + 1

/-- `share_note_to_group` (routes.py): the group gate tests membership
only (`current_user not in group.members.all()` — the creator clause of
`view_group` is absent here); then the shared note must be owned by the
acting user; then an application-level lookup rejects a duplicate
(note_id, group_id) pair before inserting. -/
def share_note_to_group (db : DB) (uid gid nidParam : Nat) : Resp × DB :=
  match findGroup db gid with
  | none => (.notFound, db)
  | some g =>
    if ¬ isMember db uid g.id then (.forbidden, db)
    else
      match findNote db nidParam with
      | none => (.notFound, db)
      | some n =>
        match findSubject db n.subject_id with
        | none => (.srvError, db)
        | some s =>
          if s.user_id ≠ uid then (.forbidden, db)
          else if (db.shared_notes.find?
              (fun sn => sn.note_id == n.id && sn.group_id == g.id)).isSome then
            (.alreadyShared, db)
          else
            (.sharedOk, { db with shared_notes := db.shared_notes ++
              [{ id := nextSharedId db, note_id := n.id, group_id := g.id,
                 shared_by := uid }] })

/-! ### Invite-code generation (models.StudyGroup.generate_invite_code and
the retry loop of routes.create_group) -/

/-- `string.ascii_uppercase + string.digits`, the alphabet
`random.choices` draws from. -/
def INVITE_ALPHABET : List Char := "ABCDEFGHIJKLMNOPQRSTUVWXYZ0123456789".toList

/-- `StudyGroup.generate_invite_code` (models.py): 8 draws from the
36-character alphabet.  The randomness is an oracle `rand` giving, for the
`r`-th call of the generator, the alphabet index drawn at each of the 8
positions. -/
def generate_invite_code (rand : Nat → Nat → Fin 36) (r : Nat) : String :=
  String.mk ((List.range 8).map (fun j => INVITE_ALPHABET.getD (rand r j).val 'A'))

/-- The invite codes already present among the stored groups. -/
def existingCodes (db : DB) : List String :=
  db.groups.map (fun g => g.invite_code)

/-- The collision-retry loop of `create_group` (routes.py): draw a code,
and while it collides with a stored `invite_code` draw again.  `r` is the
index of the next generator call and `fuel` bounds the number of retries
still allowed, making the possible non-termination of the source's
`while` loop explicit. -/
def invite_code_loop (rand : Nat → Nat → Fin 36) (existing : List String) :
    Nat → Nat → Option String
  | _, 0 => none
  | r, fuel + 1 =>
    let c := generate_invite_code rand r
    if c ∈ existing then invite_code_loop rand existing (r + 1) fuel
    else some c

/-! ### AI gateway (`app/ai_service.py`) -/

/-- The fixed ordered fallback list `FREE_MODELS`. -/
def FREE_MODELS : List String :=
  [ "meta-llama/llama-3.2-3b-instruct:free",
    "google/gemma-3-4b-it:free",
    "qwen/qwen3-4b:free",
    "mistralai/mistral-small-3.1-24b-instruct:free",
    "meta-llama/llama-3.3-70b-instruct:free" ]

/-- One outbound request of `call_ai`: the payload names a model, carries
the prompt as the single user message and the `max_tokens` bound, and is
sent with `urlopen(req, timeout=30)`. -/
structure AiRequest where
  model : String
  prompt : String
  max_tokens : Nat
  timeout : Nat
deriving DecidableEq, Repr

/-- How `call_ai` builds the request for one model: the timeout is the
literal 30 seconds of the source. -/
def mkRequest (model prompt : String) (max_tokens : Nat) : AiRequest :=
  { model := model, prompt := prompt, max_tokens := max_tokens, timeout := 30 }

/-- What one attempt of the `for model in FREE_MODELS` body can yield:
either the parsed `choices[0].message.content` string, or any exception
(transport error, timeout, non-success status, malformed body) — the bare
`except Exception: continue` does not distinguish them. -/
inductive AttemptOutcome where
  | content : String → AttemptOutcome
  | failure : AttemptOutcome
deriving DecidableEq, Repr

/-- An attempt whose outcome the loop body does not return from: an
exception, or parsed content failing `content and len(content) > 5`. -/
def attemptRejected (o : AttemptOutcome) : Prop :=
  match o with
  | .failure => True
  | .content c => ¬(c ≠ "" ∧ c.length > 5)

instance (o : AttemptOutcome) : Decidable (attemptRejected o) := by
  unfold attemptRejected
  cases o <;> infer_instance

/-- The `for model in FREE_MODELS` loop of `call_ai`: each model is tried
in order via the network oracle `attempt`; the first parsed content
passing `content and len(content) > 5` is returned, every other outcome
falls through to the next model. -/
def tryModels (attempt : AiRequest → AttemptOutcome) (prompt : String)
    (max_tokens : Nat) : List String → Option String
  | [] => none
  | m :: rest =>
    match attempt (mkRequest m prompt max_tokens) with
    | .content c =>
      if c ≠ "" ∧ c.length > 5 then some c
      else tryModels attempt prompt max_tokens rest
    | .failure => tryModels attempt prompt max_tokens rest

/-- The early-return string when no usable API key is configured. -/
def MSG_NO_KEY : String :=
  "❌ API key not set. Please add OPENROUTER_API_KEY to your .env file."

/-- The fixed failure string returned when every model failed. -/
def MSG_ALL_FAIL : String :=
  "❌ All AI models are currently unavailable. Please try again in a moment."

/-- The placeholder key value `call_ai` treats as unset. -/
def APIKEY_PLACEHOLDER : String := "your_openrouter_api_key_here"

/-- `call_ai` (ai_service.py): reject a missing/placeholder key, otherwise
scan `FREE_MODELS` and fall back to the fixed failure string. -/
def call_ai (api_key prompt : String) (max_tokens : Nat)
    (attempt : AiRequest → AttemptOutcome) : String :=
  if api_key = "" ∨ api_key = APIKEY_PLACEHOLDER then MSG_NO_KEY
  else
    match tryModels attempt prompt max_tokens FREE_MODELS with
    | some c => c
    | none => MSG_ALL_FAIL

/-! ### Leaderboard (`routes.leaderboard`) -/

/-- One row of the leaderboard before/after rank assignment (the handler's
per-user dict; `rank` is written after sorting, 0 beforehand). -/
structure LBEntry where
  username : String
  total_notes : Nat
  total_subjects : Nat
  mastered : Nat
  score : Nat
  is_me : Bool
  rank : Nat
deriving DecidableEq, Repr

/-- The subjects of a user (`user.subjects`). -/
def userSubjects (db : DB) (uid : Nat) : List Subject :=
  db.subjects.filter (fun s => s.user_id == uid)

/-- `Subject.note_count` (models.py). -/
def note_count (db : DB) (s : Subject) : Nat :=
  (db.notes.filter (fun n => n.subject_id == s.id)).length

/-- `Subject` notes with `progress == 'mastered'` (models.py
`mastered_count` / the leaderboard's per-subject filter). -/
def mastered_count (db : DB) (s : Subject) : Nat :=
  (db.notes.filter (fun n => n.subject_id == s.id && n.progress == "mastered")).length

/-- The per-user dict the leaderboard handler builds: totals over the
user's subjects and `score = total_notes*10 + total_subjects*5 +
mastered*20`. -/
def lbEntryFor (db : DB) (uid : Nat) (u : User) : LBEntry :=
  let subs := userSubjects db u.id
  let tn := (subs.map (note_count db)).sum
  let ts := subs.length
  let ms := (subs.map (mastered_count db)).sum
  { username := u.username, total_notes := tn, total_subjects := ts,
    mastered := ms, score := tn * 10 + ts * 5 + ms * 20,
    is_me := u.id == uid, rank := 0 }

/-- Insert an entry into a score-descending list, before the first element
whose score it reaches: one step of the stable descending sort that
`list.sort(key=..., reverse=True)` performs. -/
def insortDesc (e : LBEntry) : List LBEntry → List LBEntry
  | [] => [e]
  | x :: xs => if x.score ≤ e.score then e :: x :: xs else x :: insortDesc e xs

/-- `leaderboard_data.sort(key=lambda x: x['score'], reverse=True)`:
stable sort by descending score. -/
def sortDesc (l : List LBEntry) : List LBEntry := l.foldr insortDesc []

/-- `for i, entry in enumerate(...): entry['rank'] = i + 1`. -/
def assignRanks : Nat → List LBEntry → List LBEntry
  | _, [] => []
  | i, e :: rest => { e with rank := i + 1 } :: assignRanks (i + 1) rest

/-- The whole `leaderboard` handler (routes.py): build a row per
registered user, sort by descending score, assign ranks by position. -/
def leaderboard (db : DB) (uid : Nat) : List LBEntry :=
  assignRanks 0 (sortDesc (db.users.map (lbEntryFor db uid)))

/-- The three-state invariant of §3 of the spec: every stored note's
`progress` is one of the enumerated values. -/
def validProgress (db : DB) : Prop :=
  ∀ n ∈ db.notes, n.progress ∈ PROGRESS_VALUES

instance (db : DB) : Decidable (validProgress db) := by
  unfold validProgress
  infer_instance

/-! ### Concrete fixtures used by witnesses and counterexamples -/

/-- Two users; user 2 owns subject 10 and, through it, note 100. -/
def dbA : DB :=
  { users := [⟨1, "alice"⟩, ⟨2, "bob"⟩],
    subjects := [⟨10, "Math", "", "#0d6efd", 2⟩],
    notes := [⟨100, "t", "c", false, "unread", "#ffffff", 10⟩],
    groups := [], shared_notes := [], group_members := [] }

/-- The subject of `dbA`, owned by user 2. -/
def subjA : Subject := ⟨10, "Math", "", "#0d6efd", 2⟩

/-- The note of `dbA`, transitively owned by user 2. -/
def noteA : Note := ⟨100, "t", "c", false, "unread", "#ffffff", 10⟩

/-- One user with the spec's example library: Math with 3 notes of which
1 mastered, History with 2 notes of which 0 mastered. -/
def lbDb : DB :=
  { users := [⟨1, "alice"⟩],
    subjects := [⟨1, "Math", "", "#0d6efd", 1⟩, ⟨2, "History", "", "#0d6efd", 1⟩],
    notes := [⟨1, "a", "x", false, "mastered", "#ffffff", 1⟩,
              ⟨2, "b", "x", false, "unread", "#ffffff", 1⟩,
              ⟨3, "c", "x", false, "reading", "#ffffff", 1⟩,
              ⟨4, "d", "x", false, "unread", "#ffffff", 2⟩,
              ⟨5, "e", "x", false, "reading", "#ffffff", 2⟩],
    groups := [], shared_notes := [], group_members := [] }

/-- User 1 is a member of group 7, owns note 100 through subject 10, and
note 100 is already shared into group 7. -/
def shareDb : DB :=
  { users := [⟨1, "alice"⟩],
    subjects := [⟨10, "Math", "", "#0d6efd", 1⟩],
    notes := [⟨100, "t", "c", false, "unread", "#ffffff", 10⟩],
    groups := [⟨7, "g", "", "ABCDEFGH", 1⟩],
    shared_notes := [⟨1, 100, 7, 1⟩],
    group_members := [(1, 7)] }

/-- The subject of `shareDb`, owned by user 1. -/
def subjShare : Subject := ⟨10, "Math", "", "#0d6efd", 1⟩

/-- The group of `shareDb` and `cexDb`. -/
def cexGroup : StudyGroup := ⟨7, "g", "", "ABCDEFGH", 1⟩

/-- User 1 created group 7 but is not in its member set (the state after
creating the group and then leaving it via `leave_group`). -/
def cexDb : DB :=
  { users := [⟨1, "alice"⟩], subjects := [], notes := [],
    groups := [⟨7, "g", "", "ABCDEFGH", 1⟩],
    shared_notes := [], group_members := [] }

/-- A degenerate randomness oracle that always draws alphabet index 0. -/
def rand0 : Nat → Nat → Fin 36 := fun _ _ => ⟨0, by decide⟩

/-- Attempt oracle for the C2 witness: the first listed model raises, the
second returns content that is too short, the third answers usably. -/
def witAttempt : AiRequest → AttemptOutcome := fun r =>
  if r.model = "qwen/qwen3-4b:free" then .content "a longer answer"
  else if r.model = "google/gemma-3-4b-it:free" then .content "hi"
  else .failure

/-! ### Theorems -/

/-- C1: for distinct users A and B and any Subject or Note transitively
owned by B, every view / edit / delete / export / AI / pin / color /
progress request by A addressed to its numeric id yields a 403 response
and leaves the stored state unchanged. -/
theorem c1_cross_user_forbidden :
    (∀ db uidA sid s, findSubject db sid = some s → s.user_id ≠ uidA →
        view_subject db uidA sid = (.forbidden, db)
      ∧ (∀ form, edit_subject db uidA sid form = (.forbidden, db))
      ∧ delete_subject db uidA sid = (.forbidden, db)
      ∧ (∀ form newId, create_note db uidA sid form newId = (.forbidden, db)))
  ∧ (∀ db uidA nid n s, findNote db nid = some n →
      findSubject db n.subject_id = some s → s.user_id ≠ uidA →
        view_note db uidA nid = (.forbidden, db)
      ∧ (∀ form, edit_note db uidA nid form = (.forbidden, db))
      ∧ delete_note db uidA nid = (.forbidden, db)
      ∧ export_note db uidA nid = (.forbidden, db)
      ∧ export_note_pdf db uidA nid = (.forbidden, db)
      ∧ toggle_pin_note db uidA nid = (.forbidden, db)
      ∧ (∀ colorParam, update_note_color db uidA nid colorParam = (.forbidden, db))
      ∧ (∀ progressParam, update_progress db uidA nid progressParam = (.forbidden, db))
      ∧ (∀ oracle, ai_summarize db uidA nid oracle = (.forbidden, db))) := by
  constructor
  · intro db uidA sid s hf ho
    refine ⟨?_, ?_, ?_, ?_⟩
    · simp [view_subject, hf, ho]
    · intro form; simp [edit_subject, hf, ho]
    · simp [delete_subject, hf, ho]
    · intro form newId; simp [create_note, hf, ho]
  · intro db uidA nid n s hn hs ho
    refine ⟨?_, ?_, ?_, ?_, ?_, ?_, ?_, ?_, ?_⟩
    · simp [view_note, hn, hs, ho]
    · intro form; simp [edit_note, hn, hs, ho]
    · simp [delete_note, hn, hs, ho]
    · simp [export_note, hn, hs, ho]
    · simp [export_note_pdf, hn, hs, ho]
    · simp [toggle_pin_note, hn, hs, ho]
    · intro colorParam; simp [update_note_color, hn, hs, ho]
    · intro progressParam; simp [update_progress, hn, hs, ho]
    · intro oracle; simp [ai_summarize, hn, hs, ho]

/-- C1 witness: user 1 attacking user 2's subject 10 and note 100 in
`dbA` gets 403 with the state unchanged, on every kind of endpoint. -/
theorem c1_cross_user_forbidden_witness :
    view_subject dbA 1 10 = (.forbidden, dbA)
    ∧ delete_subject dbA 1 10 = (.forbidden, dbA)
    ∧ view_note dbA 1 100 = (.forbidden, dbA)
    ∧ delete_note dbA 1 100 = (.forbidden, dbA)
    ∧ export_note dbA 1 100 = (.forbidden, dbA)
    ∧ toggle_pin_note dbA 1 100 = (.forbidden, dbA)
    ∧ update_progress dbA 1 100 (some "mastered") = (.forbidden, dbA) := by
  have h1 := c1_cross_user_forbidden.1 dbA 1 10 subjA (by decide) (by decide)
  have h2 := c1_cross_user_forbidden.2 dbA 1 100 noteA subjA (by decide) (by decide) (by decide)
  exact ⟨h1.1, h1.2.2.1, h2.1, h2.2.2.1, h2.2.2.2.1, h2.2.2.2.2.2.1,
    h2.2.2.2.2.2.2.2.1 (some "mastered")⟩

/-- The model scan returns the first content that passes the length
filter, provided every earlier model's attempt was rejected. -/
lemma tryModels_eq_of_firstAccepted
    (attempt : AiRequest → AttemptOutcome) (prompt : String) (mt : Nat) :
    ∀ (L : List String) (i : Nat) (hi : i < L.length) (c : String),
      (∀ j (hj : j < i),
        attemptRejected (attempt (mkRequest (L.get ⟨j, Nat.lt_trans hj hi⟩) prompt mt))) →
      attempt (mkRequest (L.get ⟨i, hi⟩) prompt mt) = .content c →
      (c ≠ "" ∧ c.length > 5) →
      tryModels attempt prompt mt L = some c := by
  intro L
  induction L with
  | nil => intro i hi; exact absurd hi (by simp)
  | cons m rest ih =>
    intro i hi c hrej hc hacc
    cases i with
    | zero =>
      have hm : attempt (mkRequest m prompt mt) = .content c := hc
      simp [tryModels, hm, hacc.1, hacc.2]
    | succ i' =>
      have h0 : attemptRejected (attempt (mkRequest m prompt mt)) :=
        hrej 0 (Nat.succ_pos i')
      have hi' : i' < rest.length := Nat.lt_of_succ_lt_succ hi
      have hrest : tryModels attempt prompt mt rest = some c := by
        refine ih i' hi' c ?_ hc hacc
        intro j hj
        exact hrej (j + 1) (Nat.succ_lt_succ hj)
      cases houtcome : attempt (mkRequest m prompt mt) with
      | failure => simpa [tryModels, houtcome] using hrest
      | content c0 =>
        rw [houtcome] at h0
        have hnot : ¬(c0 ≠ "" ∧ c0.length > 5) := h0
        simpa [tryModels, houtcome, hnot] using hrest

/-- If every model's attempt is rejected, the scan comes up empty. -/
lemma tryModels_eq_none_of_allRejected
    (attempt : AiRequest → AttemptOutcome) (prompt : String) (mt : Nat) :
    ∀ L : List String,
      (∀ m ∈ L, attemptRejected (attempt (mkRequest m prompt mt))) →
      tryModels attempt prompt mt L = none := by
  intro L
  induction L with
  | nil => intro _; rfl
  | cons m rest ih =>
    intro hall
    have h0 := hall m (List.mem_cons_self m rest)
    have hrest := ih (fun x hx => hall x (List.mem_cons_of_mem m hx))
    cases houtcome : attempt (mkRequest m prompt mt) with
    | failure => simpa [tryModels, houtcome] using hrest
    | content c0 =>
      rw [houtcome] at h0
      have hnot : ¬(c0 ≠ "" ∧ c0.length > 5) := h0
      simpa [tryModels, houtcome, hnot] using hrest

/-- A successful scan result is the parsed content of one of the models. -/
lemma tryModels_some_mem
    (attempt : AiRequest → AttemptOutcome) (prompt : String) (mt : Nat) :
    ∀ (L : List String) (c : String),
      tryModels attempt prompt mt L = some c →
      ∃ m ∈ L, attempt (mkRequest m prompt mt) = .content c := by
  intro L
  induction L with
  | nil => intro c h; simp [tryModels] at h
  | cons m rest ih =>
    intro c h
    cases houtcome : attempt (mkRequest m prompt mt) with
    | failure =>
      simp only [tryModels, houtcome] at h
      obtain ⟨m', hm', hc'⟩ := ih c h
      exact ⟨m', List.mem_cons_of_mem m hm', hc'⟩
    | content c0 =>
      simp only [tryModels, houtcome] at h
      by_cases hacc : c0 ≠ "" ∧ c0.length > 5
      · rw [if_pos hacc] at h
        cases h
        exact ⟨m, List.mem_cons_self m rest, houtcome⟩
      · rw [if_neg hacc] at h
        obtain ⟨m', hm', hc'⟩ := ih c h
        exact ⟨m', List.mem_cons_of_mem m hm', hc'⟩

/-- C2: with a usable key, `call_ai` tries the models of `FREE_MODELS` in
order, each request carrying the 30-second timeout, and returns the parsed
content of the first attempt that passes the `len(content) > 5` filter;
every earlier rejected attempt (exception or short content) just moves the
scan to the next model. -/
theorem c2_fallback_first_accepted
    (api_key prompt : String) (mt : Nat) (attempt : AiRequest → AttemptOutcome)
    (hkey : ¬(api_key = "" ∨ api_key = APIKEY_PLACEHOLDER))
    (i : Nat) (hi : i < FREE_MODELS.length) (c : String)
    (hrej : ∀ j (hj : j < i),
      attemptRejected (attempt (mkRequest (FREE_MODELS.get ⟨j, Nat.lt_trans hj hi⟩) prompt mt)))
    (hc : attempt (mkRequest (FREE_MODELS.get ⟨i, hi⟩) prompt mt) = .content c)
    (hacc : c ≠ "" ∧ c.length > 5) :
    call_ai api_key prompt mt attempt = c
    ∧ (mkRequest (FREE_MODELS.get ⟨i, hi⟩) prompt mt).timeout = 30 := by
  constructor
  · rw [call_ai, if_neg hkey,
      tryModels_eq_of_firstAccepted attempt prompt mt FREE_MODELS i hi c hrej hc hacc]
  · rfl

/-- C2 witness: the first two models fail (one exception, one too-short
content), the third returns "a longer answer", and `call_ai` hands exactly
that string back. -/
theorem c2_fallback_witness :
    call_ai "sk-key" "p" 256 witAttempt = "a longer answer" := by
  have h := c2_fallback_first_accepted "sk-key" "p" 256 witAttempt
    (by decide) 2 (by decide) "a longer answer"
    (by
      intro j hj
      interval_cases j
      · exact (by decide :
          attemptRejected (witAttempt (mkRequest "meta-llama/llama-3.2-3b-instruct:free" "p" 256)))
      · exact (by decide :
          attemptRejected (witAttempt (mkRequest "google/gemma-3-4b-it:free" "p" 256))))
    (by decide)
    (by decide)
  exact h.1

/-- C3: `call_ai` is a total function into strings — its value is always
the no-key notice, the fixed all-models-failed string, or content parsed
from one of the listed models — and when every model's attempt is
rejected it is exactly the fixed failure string. -/
theorem c3_total_and_fixed_failure :
    (∀ api_key prompt mt attempt,
        call_ai api_key prompt mt attempt = MSG_NO_KEY
      ∨ call_ai api_key prompt mt attempt = MSG_ALL_FAIL
      ∨ ∃ m ∈ FREE_MODELS,
          attempt (mkRequest m prompt mt) = .content (call_ai api_key prompt mt attempt))
  ∧ (∀ api_key prompt mt attempt,
      ¬(api_key = "" ∨ api_key = APIKEY_PLACEHOLDER) →
      (∀ m ∈ FREE_MODELS, attemptRejected (attempt (mkRequest m prompt mt))) →
      call_ai api_key prompt mt attempt = MSG_ALL_FAIL) := by
  constructor
  · intro api_key prompt mt attempt
    by_cases hkey : api_key = "" ∨ api_key = APIKEY_PLACEHOLDER
    · left; rw [call_ai, if_pos hkey]
    · cases hscan : tryModels attempt prompt mt FREE_MODELS with
      | none => right; left; rw [call_ai, if_neg hkey, hscan]
      | some c =>
        right; right
        obtain ⟨m, hm, hc⟩ := tryModels_some_mem attempt prompt mt FREE_MODELS c hscan
        refine ⟨m, hm, ?_⟩
        rw [call_ai, if_neg hkey, hscan]
        exact hc
  · intro api_key prompt mt attempt hkey hall
    rw [call_ai, if_neg hkey,
      tryModels_eq_none_of_allRejected attempt prompt mt FREE_MODELS hall]

/-- C3 witness: with a set key and every model raising, the caller sees
the fixed failure string. -/
theorem c3_total_witness :
    call_ai "sk-key" "p" 64 (fun _ => .failure) = MSG_ALL_FAIL :=
  c3_total_and_fixed_failure.2 "sk-key" "p" 64 (fun _ => .failure)
    (by decide) (fun m _ => trivial)

/-- Membership through one descending insertion step. -/
lemma mem_insortDesc {x e : LBEntry} :
    ∀ {l : List LBEntry}, x ∈ insortDesc e l ↔ x = e ∨ x ∈ l := by
  intro l
  induction l with
  | nil => simp [insortDesc]
  | cons y ys ih =>
    by_cases hy : y.score ≤ e.score
    · simp [insortDesc, hy]
    · simp [insortDesc, hy, ih]
      tauto

/-- One descending insertion step preserves descending sortedness. -/
lemma pairwise_insortDesc (e : LBEntry) :
    ∀ (l : List LBEntry), l.Pairwise (fun a b => b.score ≤ a.score) →
      (insortDesc e l).Pairwise (fun a b => b.score ≤ a.score) := by
  intro l
  induction l with
  | nil => intro _; simp [insortDesc]
  | cons y ys ih =>
    intro h
    rw [List.pairwise_cons] at h
    by_cases hy : y.score ≤ e.score
    · rw [insortDesc, if_pos hy, List.pairwise_cons]
      refine ⟨?_, List.pairwise_cons.mpr h⟩
      intro b hb
      rcases List.mem_cons.mp hb with hb | hb
      · exact hb ▸ hy
      · exact Nat.le_trans (h.1 b hb) hy
    · rw [insortDesc, if_neg hy, List.pairwise_cons]
      refine ⟨?_, ih h.2⟩
      intro b hb
      rcases mem_insortDesc.mp hb with hb | hb
      · exact hb ▸ Nat.le_of_lt (Nat.lt_of_not_le hy)
      · exact h.1 b hb

/-- The stable descending sort is sorted by descending score. -/
lemma pairwise_sortDesc (l : List LBEntry) :
    (sortDesc l).Pairwise (fun a b => b.score ≤ a.score) := by
  induction l with
  | nil => simp [sortDesc]
  | cons e es ih => exact pairwise_insortDesc e (sortDesc es) ih

/-- One descending insertion step is a permutation of consing. -/
lemma perm_insortDesc (e : LBEntry) :
    ∀ (l : List LBEntry), (insortDesc e l).Perm (e :: l) := by
  intro l
  induction l with
  | nil => simp [insortDesc]
  | cons y ys ih =>
    by_cases hy : y.score ≤ e.score
    · rw [insortDesc, if_pos hy]
    · rw [insortDesc, if_neg hy]
      exact (List.Perm.cons y ih).trans (List.Perm.swap e y ys)

/-- The sort permutes its input. -/
lemma perm_sortDesc (l : List LBEntry) : (sortDesc l).Perm l := by
  induction l with
  | nil => simp [sortDesc]
  | cons e es ih =>
    exact (perm_insortDesc e (sortDesc es)).trans (List.Perm.cons e ih)

/-- Rank assignment does not change the scores. -/
lemma assignRanks_map_score :
    ∀ (i : Nat) (l : List LBEntry),
      (assignRanks i l).map (fun e => e.score) = l.map (fun e => e.score) := by
  intro i l
  induction l generalizing i with
  | nil => rfl
  | cons e rest ih => simp [assignRanks, ih]

/-- The entry at position `j` of `assignRanks i l` carries rank `i+j+1`. -/
lemma assignRanks_rank :
    ∀ (l : List LBEntry) (i j : Nat) (h : j < (assignRanks i l).length),
      ((assignRanks i l).get ⟨j, h⟩).rank = i + j + 1 := by
  intro l
  induction l with
  | nil => intro i j h; simp [assignRanks] at h
  | cons e rest ih =>
    intro i j h
    cases j with
    | zero => simp [assignRanks]
    | succ j' =>
      have h' : j' < (assignRanks (i + 1) rest).length := by
        simpa [assignRanks] using Nat.lt_of_succ_lt_succ (by simpa [assignRanks] using h)
      calc ((assignRanks i (e :: rest)).get ⟨j' + 1, h⟩).rank
          = ((assignRanks (i + 1) rest).get ⟨j', h'⟩).rank := rfl
        _ = (i + 1) + j' + 1 := ih (i + 1) j' h'
        _ = i + (j' + 1) + 1 := by omega

/-- C4: the leaderboard's scores are a permutation of
`notes*10 + subjects*5 + mastered*20` over the registered users, the
output is sorted by descending score, rank at position `i` is `i+1`, and
on the spec's example library (Math: 3 notes / 1 mastered, History:
2 notes / 0 mastered) the single entry scores 80 at rank 1. -/
theorem c4_leaderboard_score_sort_rank :
    (∀ db uid, ((leaderboard db uid).map (fun e => e.score)).Pairwise (fun a b => b ≤ a))
  ∧ (∀ db uid, ((leaderboard db uid).map (fun e => e.score)).Perm
      (db.users.map (fun u =>
        ((userSubjects db u.id).map (note_count db)).sum * 10
        + (userSubjects db u.id).length * 5
        + ((userSubjects db u.id).map (mastered_count db)).sum * 20)))
  ∧ (∀ db uid i (h : i < (leaderboard db uid).length),
      ((leaderboard db uid).get ⟨i, h⟩).rank = i + 1)
  ∧ (leaderboard lbDb 1).map (fun e => (e.score, e.rank)) = [(80, 1)] := by
  refine ⟨?_, ?_, ?_, by decide⟩
  · intro db uid
    rw [leaderboard, assignRanks_map_score]
    exact List.pairwise_map.mpr
      (pairwise_sortDesc (db.users.map (lbEntryFor db uid)))
  · intro db uid
    rw [leaderboard, assignRanks_map_score]
    have h1 := (perm_sortDesc (db.users.map (lbEntryFor db uid))).map (fun e => e.score)
    refine h1.trans ?_
    rw [List.map_map]
    exact List.Perm.refl _
  · intro db uid i h
    have := assignRanks_rank (sortDesc (db.users.map (lbEntryFor db uid))) 0 i
      (by simpa [leaderboard] using h)
    simpa [leaderboard] using this

/-- C4 witness: on the example library the one entry has rank 0+1 = 1. -/
theorem c4_leaderboard_witness :
    ((leaderboard lbDb 1).get ⟨0, by decide⟩).rank = 0 + 1 :=
  c4_leaderboard_score_sort_rank.2.2.1 lbDb 1 0 (by decide)

/-- C5 counterexample: in `cexDb` user 1 created group 7 but is not in
its member set (having left it), so `user ∈ members ∨ user.id ==
created_by` holds; `view_group` accordingly authorizes, but
`share_note_to_group` responds 403 — refuting the claim that every
group-scoped operation authorizes exactly that disjunction. -/
theorem c5_group_auth_counterexample :
    findGroup cexDb 7 = some cexGroup
    ∧ cexGroup.created_by = 1
    ∧ isMember cexDb 1 7 = false
    ∧ view_group cexDb 1 7 = (.page, cexDb)
    ∧ share_note_to_group cexDb 1 7 0 = (.forbidden, cexDb) := by
  decide

/-- C5 amended: `view_group` authorizes exactly when the acting user is a
member or the creator; `share_note_to_group` instead requires membership
alone — a creator who is not a member is forbidden — and additionally
requires the shared note to be owned by the acting user, in which case it
is not forbidden. -/
theorem c5_group_auth_amended :
    (∀ db uid gid g, findGroup db gid = some g →
      (view_group db uid gid = (.forbidden, db)
        ↔ (¬ isMember db uid g.id ∧ g.created_by ≠ uid)))
  ∧ (∀ db uid gid g nidP, findGroup db gid = some g →
      ¬ isMember db uid g.id →
      share_note_to_group db uid gid nidP = (.forbidden, db))
  ∧ (∀ db uid gid g nidP n s, findGroup db gid = some g →
      isMember db uid g.id →
      findNote db nidP = some n →
      findSubject db n.subject_id = some s → s.user_id = uid →
      (share_note_to_group db uid gid nidP).1 ≠ .forbidden) := by
  refine ⟨?_, ?_, ?_⟩
  · intro db uid gid g hg
    simp only [view_group, hg]
    by_cases hcond : (¬ isMember db uid g.id ∧ g.created_by ≠ uid)
    · simp [hcond]
    · simp only [if_neg hcond]
      simp
      intro hfalse
      by_contra hne
      exact hcond ⟨by simp [hfalse], hne⟩
  · intro db uid gid g nidP hg hmem
    simp [share_note_to_group, hg, hmem]
  · intro db uid gid g nidP n s hg hmem hn hs hown
    simp only [share_note_to_group, hg, hmem, hn, hs, hown]
    by_cases hdup : (db.shared_notes.find?
        (fun sn => sn.note_id == n.id && sn.group_id == g.id)).isSome
    · simp [hdup]
    · simp [hdup]

/-- C5 amended witness: in `shareDb` user 1 is a member owning note 100,
so a share request is not forbidden; in `cexDb` user 2 (neither member
nor creator) is forbidden from viewing group 7, and non-member user 1 is
forbidden from sharing into it. -/
theorem c5_group_auth_amended_witness :
    view_group cexDb 2 7 = (.forbidden, cexDb)
    ∧ share_note_to_group cexDb 1 7 0 = (.forbidden, cexDb)
    ∧ (share_note_to_group shareDb 1 7 100).1 ≠ .forbidden := by
  refine ⟨?_, ?_, ?_⟩
  · exact (c5_group_auth_amended.1 cexDb 2 7 cexGroup (by decide)).mpr (by decide)
  · exact c5_group_auth_amended.2.1 cexDb 1 7 cexGroup 0 (by decide) (by decide)
  · exact c5_group_auth_amended.2.2 shareDb 1 7 cexGroup 100 noteA subjShare
      (by decide) (by decide) (by decide) (by decide) (by decide)

/-- Every generated invite code has exactly 8 characters. -/
lemma generate_invite_code_length (rand : Nat → Nat → Fin 36) (r : Nat) :
    (generate_invite_code rand r).length = 8 := by
  simp [generate_invite_code, String.length]

/-- With enough fuel, the retry loop started at generator call `r`
returns some code it generated that is not among the existing ones,
provided the generator produces a non-colliding code `k` calls later. -/
lemma invite_code_loop_finds (rand : Nat → Nat → Fin 36) (existing : List String) :
    ∀ (k r : Nat), generate_invite_code rand (r + k) ∉ existing →
      ∃ c, invite_code_loop rand existing r (k + 1) = some c
        ∧ c ∉ existing ∧ ∃ r0, c = generate_invite_code rand r0 := by
  intro k
  induction k with
  | zero =>
    intro r hfresh
    rw [Nat.add_zero] at hfresh
    refine ⟨generate_invite_code rand r, ?_, hfresh, r, rfl⟩
    rw [invite_code_loop, if_neg hfresh]
  | succ k' ih =>
    intro r hfresh
    by_cases hr : generate_invite_code rand r ∈ existing
    · obtain ⟨c, hc, hcfresh, r0, hr0⟩ := ih (r + 1)
        (by rw [Nat.add_right_comm]; exact hfresh)
      exact ⟨c, by rw [invite_code_loop, if_pos hr]; exact hc, hcfresh, r0, hr0⟩
    · refine ⟨generate_invite_code rand r, ?_, hr, r, rfl⟩
      rw [invite_code_loop, if_neg hr]

/-- C6: whenever the randomness oracle eventually proposes a code that is
not an existing group's `invite_code` (which, for the uniform
`random.choices` draw, is almost sure as soon as one 8-character code over
the alphabet is unused), the `create_group` retry loop terminates and
returns an 8-character code distinct from every stored `invite_code`. -/
theorem c6_invite_code_fresh (rand : Nat → Nat → Fin 36) (db : DB)
    (h : ∃ r, generate_invite_code rand r ∉ existingCodes db) :
    ∃ fuel c, invite_code_loop rand (existingCodes db) 0 fuel = some c
      ∧ c.length = 8 ∧ c ∉ existingCodes db := by
  obtain ⟨r, hr⟩ := h
  obtain ⟨c, hc, hcfresh, r0, hr0⟩ :=
    invite_code_loop_finds rand (existingCodes db) r 0 (by simpa using hr)
  exact ⟨r + 1, c, hc, hr0 ▸ generate_invite_code_length rand r0, hcfresh⟩

/-- C6 witness: with the all-zeros draw the loop run against `cexDb`
(one group, code "ABCDEFGH") terminates on a fresh 8-character code. -/
theorem c6_invite_code_witness :
    ∃ fuel c, invite_code_loop rand0 (existingCodes cexDb) 0 fuel = some c
      ∧ c.length = 8 ∧ c ∉ existingCodes cexDb :=
  c6_invite_code_fresh rand0 cexDb ⟨0, by decide⟩

/-- C7: a progress update submitting a value outside
{unread, reading, mastered} leaves the stored state unchanged (on every
path of the handler); the update and note-creation handlers preserve the
three-state invariant, notes being created with the default `unread`. -/
theorem c7_progress_three_state :
    (∀ db uid nid v, v ∉ PROGRESS_VALUES →
      (update_progress db uid nid (some v)).2 = db)
  ∧ (∀ db uid nid p, validProgress db →
      validProgress (update_progress db uid nid p).2)
  ∧ (∀ db uid sid form newId, validProgress db →
      validProgress (create_note db uid sid form newId).2) := by
  refine ⟨?_, ?_, ?_⟩
  · intro db uid nid v hv
    cases hn : findNote db nid with
    | none => simp [update_progress, hn]
    | some n =>
      cases hs : findSubject db n.subject_id with
      | none => simp [update_progress, hn, hs]
      | some s =>
        by_cases ho : s.user_id ≠ uid
        · simp [update_progress, hn, hs, ho]
        · simp [update_progress, hn, hs, ho, hv]
  · intro db uid nid p hvalid
    cases hn : findNote db nid with
    | none => simpa [update_progress, hn] using hvalid
    | some n =>
      cases hs : findSubject db n.subject_id with
      | none => simpa [update_progress, hn, hs] using hvalid
      | some s =>
        by_cases ho : s.user_id ≠ uid
        · simpa [update_progress, hn, hs, ho] using hvalid
        · by_cases hp : (p.getD "unread") ∈ PROGRESS_VALUES
          · simp only [update_progress, hn, hs, ho, if_neg, if_pos hp, ite_false]
            intro m hm
            simp only [List.mem_map] at hm
            obtain ⟨m0, hm0, rfl⟩ := hm
            by_cases hid : (m0.id == n.id) = true
            · simpa [hid] using hp
            · simpa [hid] using hvalid m0 hm0
          · simpa [update_progress, hn, hs, ho, hp] using hvalid
  · intro db uid sid form newId hvalid
    cases hs : findSubject db sid with
    | none => simpa [create_note, hs] using hvalid
    | some s =>
      by_cases ho : s.user_id ≠ uid
      · simpa [create_note, hs, ho] using hvalid
      · cases form with
        | none => simpa [create_note, hs, ho] using hvalid
        | some f =>
          simp only [create_note, hs, ho, ite_false]
          intro m hm
          rcases List.mem_append.mp hm with hm | hm
          · exact hvalid m hm
          · simp only [List.mem_singleton] at hm
            subst hm
            simp [PROGRESS_VALUES]

/-- C7 witness: in `shareDb` a bogus value changes nothing, and the
valid-state invariant survives a valid update and a note creation. -/
theorem c7_progress_witness :
    ("bogus" ∉ PROGRESS_VALUES
      ∧ (update_progress shareDb 1 100 (some "bogus")).2 = shareDb)
    ∧ (validProgress shareDb
      ∧ validProgress (update_progress shareDb 1 100 (some "mastered")).2)
    ∧ validProgress (create_note shareDb 1 10 (some ("t2", "c2")) 101).2 := by
  refine ⟨⟨by decide, ?_⟩, ⟨by decide, ?_⟩, ?_⟩
  · exact c7_progress_three_state.1 shareDb 1 100 "bogus" (by decide)
  · exact c7_progress_three_state.2.1 shareDb 1 100 (some "mastered") (by decide)
  · exact c7_progress_three_state.2.2 shareDb 1 10 (some ("t2", "c2")) 101 (by decide)

/-- C9: for an owned note, a progress update with a value outside the
three-state set is answered `{'success': True, 'progress': value}` with
the submitted value echoed and the state unchanged — at the HTTP surface
identical in shape to an applied update. -/
theorem c9_invalid_progress_http_ok :
    ∀ db uid nid n s v, findNote db nid = some n →
      findSubject db n.subject_id = some s → s.user_id = uid →
      v ∉ PROGRESS_VALUES →
      update_progress db uid nid (some v) = (.json true v, db) := by
  intro db uid nid n s v hn hs hown hv
  simp [update_progress, hn, hs, hown, hv]

/-- C9 witness: the bogus update against the owned note 100 of `shareDb`
is answered success/echo with nothing stored. -/
theorem c9_invalid_progress_witness :
    update_progress shareDb 1 100 (some "bogus") = (.json true "bogus", shareDb) :=
  c9_invalid_progress_http_ok shareDb 1 100 noteA subjShare "bogus"
    (by decide) (by decide) (by decide) (by decide)

/-- C10: deleting an owned note removes the note row but leaves the
`shared_notes` table exactly as it was — rows that referenced the note
survive and now reference a note id that no longer resolves. -/
theorem c10_delete_note_keeps_shared_rows :
    ∀ db uid nid n s, findNote db nid = some n →
      findSubject db n.subject_id = some s → s.user_id = uid →
      (delete_note db uid nid).2.shared_notes = db.shared_notes
      ∧ findNote (delete_note db uid nid).2 nid = none := by
  intro db uid nid n s hn hs hown
  have hid : n.id = nid := by
    have := List.find?_some hn
    simpa using this
  constructor
  · simp [delete_note, hn, hs, hown]
  · simp only [delete_note, hn, hs, hown, ite_true, ite_false, ne_eq, not_true_eq_false]
    simp only [findNote]
    rw [List.find?_eq_none]
    intro x hx
    have hx2 := (List.mem_filter.mp hx).2
    simp only [bne_iff_ne, ne_eq] at hx2
    simp [hid ▸ hx2]

/-- C10 witness: deleting note 100 of `shareDb` keeps its SharedNote row
while the note itself no longer resolves. -/
theorem c10_delete_note_witness :
    (delete_note shareDb 1 100).2.shared_notes = shareDb.shared_notes
    ∧ findNote (delete_note shareDb 1 100).2 100 = none :=
  c10_delete_note_keeps_shared_rows shareDb 1 100 noteA subjShare
    (by decide) (by decide) (by decide)

/-- C8: sharing is idempotent — when a `SharedNote` row for the same
(note, group) pair already exists, a second share request by a member
owning the note inserts nothing and answers with the already-shared
notice, leaving the state unchanged. -/
theorem c8_share_idempotent :
    ∀ db uid gid nidP g n s, findGroup db gid = some g →
      isMember db uid g.id →
      findNote db nidP = some n →
      findSubject db n.subject_id = some s → s.user_id = uid →
      (∃ sn ∈ db.shared_notes, sn.note_id = n.id ∧ sn.group_id = g.id) →
      share_note_to_group db uid gid nidP = (.alreadyShared, db) := by
  intro db uid gid nidP g n s hg hmem hn hs hown hdup
  have hfound : (db.shared_notes.find?
      (fun sn => sn.note_id == n.id && sn.group_id == g.id)).isSome := by
    obtain ⟨sn, hsn, h1, h2⟩ := hdup
    exact List.find?_isSome.mpr ⟨sn, hsn, by simp [h1, h2]⟩
  simp [share_note_to_group, hg, hmem, hn, hs, hown, hfound]

/-- C8 witness: note 100 is already shared into group 7 of `shareDb`;
sharing it again reports the notice and adds no row. -/
theorem c8_share_idempotent_witness :
    share_note_to_group shareDb 1 7 100 = (.alreadyShared, shareDb) :=
  c8_share_idempotent shareDb 1 7 100 cexGroup noteA subjShare
    (by decide) (by decide) (by decide) (by decide) (by decide)
    ⟨⟨1, 100, 7, 1⟩, by decide, by decide, by decide⟩

end StudyHub
